import Mathlib

/-!
Verification of the EventedConnection repository (Go) against its
natural-language specification.

The model below is a shallow embedding of src/client.go and src/config.go.
Machine state that the Go code mutates (the transport handle, the two
broadcast channels, the two sync.Once guards, the buffered Read channel)
becomes explicit fields of a `Client` record, and every operation returns
the new state together with the ordered list of externally observable
events it performed (hook invocations, signal broadcasts, dial attempts,
handle release, mailbox enqueues). External I/O outcomes (the dial result,
the deadline-setting result, the transport read and write results) are
parameters of the corresponding operations, since they are produced by the
operating system, not by this code. A `fault` event stands for a Go
runtime panic (closing an already-closed channel); the sync.Once guards
are modelled by the `starterUsed` and `closerUsed` booleans.
-/

namespace EventedConnection

/-- Go error values, abstracted to their message strings. -/
abbrev Err := String

/-- Byte-slice payloads, abstracted to lists of naturals. -/
abbrev Payload := List Nat

/-- AfterReadHook from src/config.go: receives the bytes read and returns
the (possibly transformed) bytes together with an optional error. -/
abbrev AfterReadHook := Payload → Payload × Option Err

/-- AfterConnectHook from src/config.go: nullary, returns an optional error. -/
abbrev AfterConnectHook := Unit → Option Err

/-- BeforeDisconnectHook from src/config.go: nullary, returns an optional error. -/
abbrev BeforeDisconnectHook := Unit → Option Err

/-- OnErrorHook from src/config.go: receives an error and returns an error.
Call sites in src/client.go discard the returned value. -/
abbrev OnErrorHook := Err → Err

/-- Identity pass-through default for the after-read hook (src/config.go line 45). -/
def defaultAfterReadHook : AfterReadHook := fun data => (data, none)

/-- Identity pass-through default for the on-error hook (src/config.go line 46). -/
def defaultOnErrorHook : OnErrorHook := fun e => e

/-- DefaultConnectionTimeout from src/config.go, in nanoseconds. -/
def DefaultConnectionTimeout : Nat := 30 * 1000000000

/-- DefaultReadTimeout from src/config.go, in nanoseconds. -/
def DefaultReadTimeout : Nat := 3600 * 1000000000

/-- DefaultWriteTimeout from src/config.go, in nanoseconds. -/
def DefaultWriteTimeout : Nat := 5 * 1000000000

/-- DefaultReadBufferSize from src/config.go, in bytes. -/
def DefaultReadBufferSize : Nat := 16 * 1024

/-- The Config struct from src/config.go. Durations are nanosecond counts
(zero meaning unset, as in Go); the TLS certificate material is opaque to
the core and omitted, with only the toggle kept. Hook fields are optional,
mirroring nilable Go function fields. -/
structure Config where
  endpoint : String
  connectionTimeout : Nat
  readTimeout : Nat
  writeTimeout : Nat
  readBufferSize : Nat
  useTLS : Bool
  afterReadHook : Option AfterReadHook
  afterConnectHook : Option AfterConnectHook
  beforeDisconnectHook : Option BeforeDisconnectHook
  onErrorHook : Option OnErrorHook

/-- The configuration-carrying fields of the Client struct of src/client.go
as they stand at construction time, before and during setDefaults: all four
hook slots are still nilable here. -/
structure ClientInit where
  endpoint : String
  connectionTimeout : Nat
  readTimeout : Nat
  writeTimeout : Nat
  readBufferSize : Nat
  useTLS : Bool
  afterReadHook : Option AfterReadHook
  afterConnectHook : Option AfterConnectHook
  beforeDisconnectHook : Option BeforeDisconnectHook
  onErrorHook : Option OnErrorHook

/-- setDefaults from src/client.go lines 40 to 64. Each field update mirrors
one of the `if zero or nil then default` statements of the source; the
source touches exactly the four numeric fields plus the afterReadHook and
onErrorHook slots, and leaves afterConnectHook and beforeDisconnectHook
alone. -/
def setDefaults (conn : ClientInit) : ClientInit :=
  { conn with
    connectionTimeout :=
      if conn.connectionTimeout = 0 then DefaultConnectionTimeout
      else conn.connectionTimeout,
    readTimeout :=
      if conn.readTimeout = 0 then DefaultReadTimeout else conn.readTimeout,
    writeTimeout :=
      if conn.writeTimeout = 0 then DefaultWriteTimeout else conn.writeTimeout,
    readBufferSize :=
      if conn.readBufferSize = 0 then DefaultReadBufferSize
      else conn.readBufferSize,
    afterReadHook :=
      match conn.afterReadHook with
      | none => some defaultAfterReadHook
      | some f => some f,
    onErrorHook :=
      match conn.onErrorHook with
      | none => some defaultOnErrorHook
      | some f => some f }

/-- The operational state of a Client from src/client.go, after NewClient
has run. The transport handle is abstracted to its presence (`c`), the
Connected and Disconnected broadcast channels to their closed flags, the
buffered Read channel to the list of queued payloads, and the two
sync.Once guards to consumed flags. Because setDefaults has already run,
the afterReadHook and onErrorHook slots are total functions here, while
afterConnectHook and beforeDisconnectHook remain nilable and are
nil-checked at their call sites exactly as in the source. -/
structure Client where
  endpoint : String
  connectionTimeout : Nat
  readTimeout : Nat
  writeTimeout : Nat
  readBufferSize : Nat
  useTLS : Bool
  afterReadHook : AfterReadHook
  afterConnectHook : Option AfterConnectHook
  beforeDisconnectHook : Option BeforeDisconnectHook
  onErrorHook : OnErrorHook
  c : Bool
  connectedFired : Bool
  disconnectedFired : Bool
  readChan : List Payload
  starterUsed : Bool
  closerUsed : Bool

/-- NewClient from src/client.go lines 66 to 96: validates the endpoint,
builds the Client, applies setDefaults. The two always-defaulted hook
slots are extracted as total functions, which is sound because setDefaults
has just made them non-nil. -/
def NewClient (conf : Config) : Except Err Client :=
  if conf.endpoint.length = 0 then
    Except.error "invalid endpoint (empty string)"
  else
    let init : ClientInit :=
      { endpoint := conf.endpoint
        connectionTimeout := conf.connectionTimeout
        readTimeout := conf.readTimeout
        writeTimeout := conf.writeTimeout
        readBufferSize := conf.readBufferSize
        useTLS := conf.useTLS
        afterReadHook := conf.afterReadHook
        afterConnectHook := conf.afterConnectHook
        beforeDisconnectHook := conf.beforeDisconnectHook
        onErrorHook := conf.onErrorHook }
    let d := setDefaults init
    Except.ok
      { endpoint := d.endpoint
        connectionTimeout := d.connectionTimeout
        readTimeout := d.readTimeout
        writeTimeout := d.writeTimeout
        readBufferSize := d.readBufferSize
        useTLS := d.useTLS
        afterReadHook := d.afterReadHook.getD defaultAfterReadHook
        afterConnectHook := d.afterConnectHook
        beforeDisconnectHook := d.beforeDisconnectHook
        onErrorHook := d.onErrorHook.getD defaultOnErrorHook
        c := false
        connectedFired := false
        disconnectedFired := false
        readChan := []
        starterUsed := false
        closerUsed := false }

/-- Externally observable events of the model, in execution order. -/
inductive Event where
  | dial
  | hookOnError (e : Err)
  | hookAfterConnect
  | hookBeforeDisconnect
  | hookAfterRead (data : Payload)
  | fireConnected
  | fireDisconnected
  | spawnReadLoop
  | closeHandle
  | enqueue (p : Payload)
  | transportWrite (data : Payload)
  | fault
  deriving DecidableEq

/-- Predicate selecting dial events. -/
def Event.isDial : Event → Bool
  | Event.dial => true
  | _ => false

/-- Predicate selecting on-error hook invocations. -/
def Event.isOnError : Event → Bool
  | Event.hookOnError _ => true
  | _ => false

/-- Predicate selecting after-connect hook invocations. -/
def Event.isAfterConnect : Event → Bool
  | Event.hookAfterConnect => true
  | _ => false

/-- Predicate selecting before-disconnect hook invocations. -/
def Event.isBeforeDisconnect : Event → Bool
  | Event.hookBeforeDisconnect => true
  | _ => false

/-- Predicate selecting connected-signal broadcasts. -/
def Event.isFireConnected : Event → Bool
  | Event.fireConnected => true
  | _ => false

/-- Predicate selecting disconnected-signal broadcasts. -/
def Event.isFireDisconnected : Event → Bool
  | Event.fireDisconnected => true
  | _ => false

/-- Predicate selecting transport handle closures. -/
def Event.isCloseHandle : Event → Bool
  | Event.closeHandle => true
  | _ => false

/-- Predicate selecting runtime faults. -/
def Event.isFault : Event → Bool
  | Event.fault => true
  | _ => false

/-- Predicate selecting read-loop spawns. -/
def Event.isSpawn : Event → Bool
  | Event.spawnReadLoop => true
  | _ => false

/-- Number of events in a trace satisfying a predicate. -/
def countEvents (p : Event → Bool) (evts : List Event) : Nat :=
  (evts.filter p).length

/-- The afterConnect helper of src/client.go lines 146 to 153: nil-check
the after-connect hook, run it, and report a hook error through on-error.
It mutates no state, so it is modelled as the event list it produces. -/
def afterConnect (cl : Client) : List Event :=
  match cl.afterConnectHook with
  | none => []
  | some hook =>
    match hook () with
    | some e => [Event.hookAfterConnect, Event.hookOnError e]
    | none => [Event.hookAfterConnect]

/-- Connect from src/client.go lines 99 to 122. The dial outcome (from
tls.Dial or net.DialTimeout) is the `dial` parameter. The starter
sync.Once runs its body at most once per epoch; a failed dial reports
through on-error and returns early; a successful dial stores the handle,
spawns the read loop, closes the Connected channel (a fault if it were
already closed), and finally runs the deferred afterConnect. -/
def Connect (dial : Except Err Unit) (cl : Client) :
    Client × List Event × Option Err :=
  if cl.starterUsed then (cl, [], none)
  else
    match dial with
    | Except.error e =>
      ({ cl with starterUsed := true }, [Event.dial, Event.hookOnError e], some e)
    | Except.ok _ =>
      let cl1 := { cl with starterUsed := true, c := true }
      let fireEvts : List Event :=
        if cl1.connectedFired then [Event.fault] else [Event.fireConnected]
      let cl2 := { cl1 with connectedFired := true }
      (cl2, Event.dial :: Event.spawnReadLoop :: fireEvts ++ afterConnect cl2, none)

/-- IsActive from src/client.go lines 156 to 161: the handle is non-nil. -/
def IsActive (cl : Client) : Bool := cl.c

/-- Events produced by the before-disconnect block of Close
(src/client.go lines 201 to 205): nil-check the hook, run it, report a
hook error through on-error. -/
def closeHookEvents (cl : Client) : List Event :=
  match cl.beforeDisconnectHook with
  | none => []
  | some hook =>
    match hook () with
    | some e => [Event.hookBeforeDisconnect, Event.hookOnError e]
    | none => [Event.hookBeforeDisconnect]

/-- Close from src/client.go lines 196 to 213. The closer sync.Once runs
the body at most once per epoch: run the before-disconnect hook, close the
Disconnected channel (a fault if it were already closed), and only then,
if the handle is non-nil, close it and set it to nil. -/
def Close (cl : Client) : Client × List Event :=
  if cl.closerUsed then (cl, [])
  else
    let cl1 := { cl with closerUsed := true }
    let hookEvts := closeHookEvents cl1
    let fireEvts : List Event :=
      if cl1.disconnectedFired then [Event.fault] else [Event.fireDisconnected]
    let cl2 := { cl1 with disconnectedFired := true }
    if cl2.c then
      ({ cl2 with c := false }, hookEvts ++ fireEvts ++ [Event.closeHandle])
    else
      (cl2, hookEvts ++ fireEvts)

/-- The error message built by Write when the handle is nil
(src/client.go line 170). -/
def writeNilErr : Err := "called Write with nil connection"

/-- Write from src/client.go lines 165 to 189. The outcomes of
SetWriteDeadline and of the transport write are parameters. A nil handle
reports and returns an error with no other effect; a deadline or write
failure reports through on-error, returns the error, and runs the
deferred Close before returning. -/
def Write (setDeadlineErr writeErr : Option Err) (data : Payload)
    (cl : Client) : Client × List Event × Option Err :=
  if cl.c = false then
    (cl, [Event.hookOnError writeNilErr], some writeNilErr)
  else
    match setDeadlineErr with
    | some e =>
      let r := Close cl
      (r.1, Event.hookOnError e :: r.2, some e)
    | none =>
      match writeErr with
      | some e =>
        let r := Close cl
        (r.1, Event.transportWrite data :: Event.hookOnError e :: r.2, some e)
      | none => (cl, [Event.transportWrite data], none)

/-- processResponse from src/client.go lines 222 to 234: empty reads are
no-ops; a non-empty read goes through the after-read hook, a hook error is
reported through on-error, and the processed payload is sent on the Read
channel in every case; the hook error is returned. -/
def processResponse (data : Payload) (cl : Client) :
    Client × List Event × Option Err :=
  if 0 < data.length then
    let r := cl.afterReadHook data
    let errEvts : List Event :=
      match r.2 with
      | some e => [Event.hookOnError e]
      | none => []
    ({ cl with readChan := cl.readChan ++ [r.1] },
     Event.hookAfterRead data :: errEvts ++ [Event.enqueue r.1], r.2)
  else (cl, [], none)

/-- The error message built by readFromConn when the handle is nil
(src/client.go line 248). -/
def readNilErr : Err := "unable to read from nil connection"

/-- One iteration worth of external input to the read loop: the outcome of
SetReadDeadline, the bytes the transport read returned (already copied out
of the reusable buffer), and the error the transport read returned. -/
structure ReadStep where
  setDeadlineErr : Option Err
  bytesRead : Payload
  readErr : Option Err

/-- The loop body of readFromConn (src/client.go lines 243 to 271), driven
by a list of external read outcomes; an exhausted list means the loop is
still running (third component none). A nil handle or a deadline failure
reports and returns; when bytes were read the read error is overwritten by
the processResponse result, exactly as the source assigns
`err = conn.processResponse(res)`; a non-nil error is reported through
on-error and returned, otherwise the loop continues. -/
def readLoop (cl : Client) : List ReadStep → Client × List Event × Option Err
  | [] => (cl, [], none)
  | step :: rest =>
    if cl.c = false then
      (cl, [Event.hookOnError readNilErr], some readNilErr)
    else
      match step.setDeadlineErr with
      | some e => (cl, [Event.hookOnError e], some e)
      | none =>
        let r :=
          if 0 < step.bytesRead.length then processResponse step.bytesRead cl
          else (cl, [], step.readErr)
        match r.2.2 with
        | some e => (r.1, r.2.1 ++ [Event.hookOnError e], some e)
        | none =>
          let rr := readLoop r.1 rest
          (rr.1, r.2.1 ++ rr.2.1, rr.2.2)

/-- readFromConn from src/client.go lines 239 to 272: run the loop and,
whenever it returns (always with an error), run the deferred Close. -/
def readFromConn (steps : List ReadStep) (cl : Client) :
    Client × List Event × Option Err :=
  let r := readLoop cl steps
  match r.2.2 with
  | some e =>
    let rc := Close r.1
    (rc.1, r.2.1 ++ rc.2, some e)
  | none => (r.1, r.2.1, none)

/-- reset from src/client.go lines 130 to 138: fresh channels and fresh
sync.Once guards for a new epoch. -/
def reset (cl : Client) : Client :=
  { cl with
    connectedFired := false
    disconnectedFired := false
    starterUsed := false
    closerUsed := false }

/-- Reconnect from src/client.go lines 124 to 128: Close, reset, Connect. -/
def Reconnect (dial : Except Err Unit) (cl : Client) :
    Client × List Event × Option Err :=
  let r1 := Close cl
  let cl2 := reset r1.1
  let r2 := Connect dial cl2
  (r2.1, r1.2 ++ r2.2.1, r2.2.2)

/-- n successive calls of Connect, collecting the event trace and the list
of returned values in order. -/
def ConnectN (dial : Except Err Unit) : Nat → Client → Client × List Event × List (Option Err)
  | 0, cl => (cl, [], [])
  | Nat.succ n, cl =>
    let r1 := Connect dial cl
    let r2 := ConnectN dial n r1.1
    (r2.1, r1.2.1 ++ r2.2.1, r1.2.2 :: r2.2.2)

/-- n successive calls of Close, collecting the event trace. -/
def CloseN : Nat → Client → Client × List Event
  | 0, cl => (cl, [])
  | Nat.succ n, cl =>
    let r1 := Close cl
    let r2 := CloseN n r1.1
    (r2.1, r1.2 ++ r2.2)

/-! Concrete clients used by the witness and counterexample theorems. -/

/-- An after-read hook that keeps the data and reports an error. -/
def demoFailingAfterRead : AfterReadHook := fun data => (data, some "afterRead failure")

/-- A connected client in mid-epoch: handle held, Connected already fired,
both optional hooks installed (returning no error), failing after-read hook. -/
def demoClientA : Client :=
  { endpoint := "example.com:9000"
    connectionTimeout := DefaultConnectionTimeout
    readTimeout := DefaultReadTimeout
    writeTimeout := DefaultWriteTimeout
    readBufferSize := DefaultReadBufferSize
    useTLS := false
    afterReadHook := demoFailingAfterRead
    afterConnectHook := some (fun _ => none)
    beforeDisconnectHook := some (fun _ => none)
    onErrorHook := defaultOnErrorHook
    c := true
    connectedFired := true
    disconnectedFired := false
    readChan := []
    starterUsed := true
    closerUsed := false }

/-- A freshly constructed, never-connected client with no optional hooks. -/
def demoClientB : Client :=
  { endpoint := "127.0.0.1:1"
    connectionTimeout := DefaultConnectionTimeout
    readTimeout := DefaultReadTimeout
    writeTimeout := DefaultWriteTimeout
    readBufferSize := DefaultReadBufferSize
    useTLS := false
    afterReadHook := defaultAfterReadHook
    afterConnectHook := some (fun _ => none)
    beforeDisconnectHook := none
    onErrorHook := defaultOnErrorHook
    c := false
    connectedFired := false
    disconnectedFired := false
    readChan := []
    starterUsed := false
    closerUsed := false }

/-- A connected mid-epoch client with a failing after-read hook and no
before-disconnect hook. -/
def demoClientC : Client :=
  { demoClientA with beforeDisconnectHook := none }

/-- A ClientInit with every defaultable field unset. -/
def demoInitEmpty : ClientInit :=
  { endpoint := "example.com:9000"
    connectionTimeout := 0
    readTimeout := 0
    writeTimeout := 0
    readBufferSize := 0
    useTLS := false
    afterReadHook := none
    afterConnectHook := none
    beforeDisconnectHook := none
    onErrorHook := none }

/-! Basic lemmas about the one-shot guards. -/

/-- A Connect call on a consumed starter guard is a complete no-op
returning nil. -/
theorem Connect_of_starterUsed (dial : Except Err Unit) (cl : Client)
    (h : cl.starterUsed = true) : Connect dial cl = (cl, [], none) := by
  simp [Connect, h]

/-- Every Connect call leaves the starter guard consumed. -/
theorem Connect_starterUsed (dial : Except Err Unit) (cl : Client) :
    (Connect dial cl).1.starterUsed = true := by
  by_cases h : cl.starterUsed = true
  · simp [Connect, h]
  · simp only [Bool.not_eq_true] at h
    cases dial <;> simp [Connect, h]

/-- A Close call on a consumed closer guard is a complete no-op. -/
theorem Close_of_closerUsed (cl : Client) (h : cl.closerUsed = true) :
    Close cl = (cl, []) := by
  simp [Close, h]

/-- Every Close call leaves the closer guard consumed. -/
theorem Close_closerUsed (cl : Client) : (Close cl).1.closerUsed = true := by
  by_cases h : cl.closerUsed = true
  · simp [Close, h]
  · simp only [Bool.not_eq_true] at h
    by_cases hc : cl.c = true <;> simp [Close, h, hc]

/-- Repeated Connect calls after the guard is consumed do nothing: no
events, no state change, and every call returns nil. -/
theorem ConnectN_of_starterUsed (dial : Except Err Unit) (n : Nat)
    (cl : Client) (h : cl.starterUsed = true) :
    ConnectN dial n cl = (cl, [], List.replicate n none) := by
  induction n with
  | zero => simp [ConnectN]
  | succ m ih => simp [ConnectN, Connect_of_starterUsed dial cl h, ih, List.replicate]

/-- Repeated Close calls after the guard is consumed do nothing. -/
theorem CloseN_of_closerUsed (n : Nat) (cl : Client)
    (h : cl.closerUsed = true) : CloseN n cl = (cl, []) := by
  induction n with
  | zero => simp [CloseN]
  | succ m ih => simp [CloseN, Close_of_closerUsed cl h, ih]

/-! Claim C1. -/

/-- Claim C1: for every non-empty read whose after-read hook invocation
returns an error, processResponse reports that error via the on-error hook
and still appends the resulting payload to the Read channel; delivery is
never suppressed by an after-read hook error, and the hook error is
returned. -/
theorem processResponse_reports_and_delivers (cl : Client)
    (data processed : Payload) (e : Err) (hdata : 0 < data.length)
    (hhook : cl.afterReadHook data = (processed, some e)) :
    (processResponse data cl).1.readChan = cl.readChan ++ [processed] ∧
    (processResponse data cl).2.1 =
      [Event.hookAfterRead data, Event.hookOnError e, Event.enqueue processed] ∧
    (processResponse data cl).2.2 = some e := by
  simp [processResponse, hdata, hhook]

/-- Witness for claim C1 at a concrete client and input. -/
theorem processResponse_reports_and_delivers_witness :
    (processResponse [1, 2] demoClientA).1.readChan = [[1, 2]] ∧
    (processResponse [1, 2] demoClientA).2.1 =
      [Event.hookAfterRead [1, 2], Event.hookOnError "afterRead failure",
       Event.enqueue [1, 2]] ∧
    (processResponse [1, 2] demoClientA).2.2 = some "afterRead failure" := by
  have h := processResponse_reports_and_delivers demoClientA [1, 2] [1, 2]
    "afterRead failure" (by decide) rfl
  simpa [demoClientA] using h

/-! Claim C2. The claim asserts the teardown order: flip the active flag
false first, then run the before-disconnect hook, then fire the
disconnected signal, then close and release the handle. In the source the
only state change that makes IsActive false is the release of the handle
itself, and it happens last, after the hook and the signal, so the claimed
first step occurs last. The part of the claim that the disconnected signal
fires strictly before the handle is released does hold. -/

/-- Claim C2 counterexample: on a connected client with a
before-disconnect hook, the trace of the first Close is exactly hook
invocation, then disconnected signal, then handle release. The hook
invocation is the head of the trace, and the handle release, the only
event by which the connection becomes inactive, is the last, so the
active flip does not precede the hook as the claim states. -/
theorem Close_flip_is_last_not_first :
    (Close demoClientA).2 =
      [Event.hookBeforeDisconnect, Event.fireDisconnected, Event.closeHandle] ∧
    (Close demoClientA).2.head? = some Event.hookBeforeDisconnect ∧
    (Close demoClientA).2.getLast? = some Event.closeHandle ∧
    IsActive demoClientA = true := by
  refine ⟨by rfl, by rfl, by rfl, by rfl⟩

/-- Claim C2 amended: Close, on its first effective call in an epoch,
runs the before-disconnect hook first (its events are only hook and
on-error invocations), then fires the disconnected signal, and only after
all of that closes and releases the transport handle, which is also the
moment the connection stops being active; in particular the disconnected
signal fires strictly before the handle is released, and the final state
is inactive with the signal fired. -/
theorem Close_first_call_sequence (cl : Client)
    (hclose : cl.closerUsed = false) (hd : cl.disconnectedFired = false)
    (hc : cl.c = true) :
    (Close cl).2 =
      closeHookEvents cl ++ [Event.fireDisconnected, Event.closeHandle] ∧
    (∀ ev ∈ closeHookEvents cl,
      ev = Event.hookBeforeDisconnect ∨ Event.isOnError ev = true) ∧
    IsActive (Close cl).1 = false ∧
    (Close cl).1.disconnectedFired = true := by
  have htrace : (Close cl).2 =
      closeHookEvents cl ++ [Event.fireDisconnected, Event.closeHandle] := by
    simp [Close, hclose, hd, hc, closeHookEvents]
  refine ⟨htrace, ?_, ?_, ?_⟩
  · intro ev hev
    unfold closeHookEvents at hev
    rcases h1 : cl.beforeDisconnectHook with _ | hook
    · simp [h1] at hev
    · rcases h2 : hook () with _ | e
      · simp [h1, h2] at hev
        simp [hev, Event.isOnError]
      · simp [h1, h2] at hev
        rcases hev with h | h <;> simp [h, Event.isOnError]
  · simp [Close, IsActive, hclose, hd, hc]
  · simp [Close, hclose, hd, hc]

/-- Witness for the amended claim C2 at a concrete connected client. -/
theorem Close_first_call_sequence_witness :
    (Close demoClientA).2 =
      closeHookEvents demoClientA ++
        [Event.fireDisconnected, Event.closeHandle] ∧
    IsActive (Close demoClientA).1 = false := by
  have h := Close_first_call_sequence demoClientA rfl rfl rfl
  exact ⟨h.1, h.2.2.1⟩

/-! Further helper lemmas about event traces. -/

/-- Event counts distribute over trace concatenation. -/
theorem countEvents_append (p : Event → Bool) (l1 l2 : List Event) :
    countEvents p (l1 ++ l2) = countEvents p l1 + countEvents p l2 := by
  simp [countEvents, List.filter_append]

/-- The before-disconnect block of Close emits only hook and on-error
events, so any predicate false on those selects nothing from it. -/
theorem closeHookEvents_filter (p : Event → Bool)
    (hp1 : p Event.hookBeforeDisconnect = false)
    (hp2 : ∀ e, p (Event.hookOnError e) = false) (cl : Client) :
    (closeHookEvents cl).filter p = [] := by
  rcases h1 : cl.beforeDisconnectHook with _ | hook
  · simp [closeHookEvents, h1]
  · rcases h2 : hook () with _ | e <;> simp [closeHookEvents, h1, h2, hp1, hp2]

/-- The afterConnect helper emits only hook and on-error events, so any
predicate false on those selects nothing from it. -/
theorem afterConnect_filter (p : Event → Bool)
    (hp1 : p Event.hookAfterConnect = false)
    (hp2 : ∀ e, p (Event.hookOnError e) = false) (cl : Client) :
    (afterConnect cl).filter p = [] := by
  rcases h1 : cl.afterConnectHook with _ | hook
  · simp [afterConnect, h1]
  · rcases h2 : hook () with _ | e <;> simp [afterConnect, h1, h2, hp1, hp2]

/-- Close never performs a dial. -/
theorem Close_no_dial (cl : Client) :
    countEvents Event.isDial (Close cl).2 = 0 := by
  by_cases h : cl.closerUsed = true
  · simp [Close, h, countEvents]
  · simp only [Bool.not_eq_true] at h
    by_cases hd : cl.disconnectedFired = true <;> by_cases hc : cl.c = true <;>
      simp [Close, h, hd, hc, countEvents, List.filter_append,
        closeHookEvents_filter Event.isDial rfl (fun _ => rfl), Event.isDial]

/-- A Connect call on a fresh starter guard performs exactly one dial,
whether the dial succeeds or fails. -/
theorem Connect_fresh_one_dial (dial : Except Err Unit) (cl : Client)
    (h : cl.starterUsed = false) :
    countEvents Event.isDial (Connect dial cl).2.1 = 1 := by
  cases dial with
  | error e => simp [Connect, h, countEvents, Event.isDial]
  | ok u =>
    by_cases hcf : cl.connectedFired = true <;>
      simp [Connect, h, hcf, countEvents, List.filter_append,
        afterConnect_filter Event.isDial rfl (fun _ => rfl), Event.isDial]

/-! Claim C3. -/

/-- Claim C3: for every n of at least 1 successive Connect calls in a
fresh epoch whose dial succeeds, the combined trace contains exactly one
dial and exactly one after-connect hook invocation, and in fact the whole
trace is the trace of the first call: every subsequent call performs no
dial and runs no hooks. -/
theorem Connect_dials_once_per_epoch (cl : Client) (n : Nat) (hn : 1 ≤ n)
    (hstart : cl.starterUsed = false) (hconn : cl.connectedFired = false)
    (f : AfterConnectHook) (hhook : cl.afterConnectHook = some f) :
    countEvents Event.isDial (ConnectN (Except.ok ()) n cl).2.1 = 1 ∧
    countEvents Event.isAfterConnect (ConnectN (Except.ok ()) n cl).2.1 = 1 ∧
    (ConnectN (Except.ok ()) n cl).2.1 = (Connect (Except.ok ()) cl).2.1 := by
  obtain ⟨m, rfl⟩ : ∃ m, n = m + 1 := ⟨n - 1, by omega⟩
  have hrest := ConnectN_of_starterUsed (Except.ok ()) m
    (Connect (Except.ok ()) cl).1 (Connect_starterUsed _ cl)
  have htrace : (ConnectN (Except.ok ()) (m + 1) cl).2.1 =
      (Connect (Except.ok ()) cl).2.1 := by
    simp [ConnectN, hrest]
  refine ⟨?_, ?_, htrace⟩ <;> rw [htrace]
  · exact Connect_fresh_one_dial _ cl hstart
  · rcases h2 : f () with _ | e <;>
      simp [Connect, hstart, hconn, afterConnect, hhook, h2, countEvents,
        Event.isAfterConnect]

/-- Witness for claim C3: three Connect calls on a fresh client. -/
theorem Connect_dials_once_per_epoch_witness :
    countEvents Event.isDial (ConnectN (Except.ok ()) 3 demoClientB).2.1 = 1 ∧
    countEvents Event.isAfterConnect
      (ConnectN (Except.ok ()) 3 demoClientB).2.1 = 1 :=
  ⟨(Connect_dials_once_per_epoch demoClientB 3 (by decide) rfl rfl
      (fun _ => none) rfl).1,
   (Connect_dials_once_per_epoch demoClientB 3 (by decide) rfl rfl
      (fun _ => none) rfl).2.1⟩

/-! Claim C4. -/

/-- Claim C4: when the dial fails, Connect returns that non-nil error,
the trace is exactly one dial followed by one on-error invocation, so the
on-error hook runs exactly once and the after-connect hook never runs,
neither signal fires, the read loop is not spawned, the only state change
is the consumed starter guard, and IsActive afterwards reports false. -/
theorem Connect_dial_failure_reports (cl : Client) (e : Err)
    (hstart : cl.starterUsed = false) (hc : cl.c = false) :
    Connect (Except.error e) cl =
      ({ cl with starterUsed := true },
       [Event.dial, Event.hookOnError e], some e) ∧
    countEvents Event.isOnError (Connect (Except.error e) cl).2.1 = 1 ∧
    countEvents Event.isAfterConnect (Connect (Except.error e) cl).2.1 = 0 ∧
    countEvents Event.isFireConnected (Connect (Except.error e) cl).2.1 = 0 ∧
    countEvents Event.isFireDisconnected (Connect (Except.error e) cl).2.1 = 0 ∧
    countEvents Event.isSpawn (Connect (Except.error e) cl).2.1 = 0 ∧
    IsActive (Connect (Except.error e) cl).1 = false := by
  have h : Connect (Except.error e) cl =
      ({ cl with starterUsed := true },
       [Event.dial, Event.hookOnError e], some e) := by
    simp [Connect, hstart]
  refine ⟨h, ?_, ?_, ?_, ?_, ?_, ?_⟩ <;>
    simp [h, countEvents, Event.isOnError, Event.isAfterConnect,
      Event.isFireConnected, Event.isFireDisconnected, Event.isSpawn,
      IsActive, hc]

/-- Witness for claim C4 at a concrete fresh client and dial error. -/
theorem Connect_dial_failure_reports_witness :
    countEvents Event.isOnError
      (Connect (Except.error "connection refused") demoClientB).2.1 = 1 ∧
    countEvents Event.isAfterConnect
      (Connect (Except.error "connection refused") demoClientB).2.1 = 0 ∧
    IsActive (Connect (Except.error "connection refused") demoClientB).1 =
      false :=
  ⟨(Connect_dial_failure_reports demoClientB "connection refused" rfl rfl).2.1,
   (Connect_dial_failure_reports demoClientB "connection refused" rfl rfl).2.2.1,
   (Connect_dial_failure_reports demoClientB "connection refused" rfl rfl).2.2.2.2.2.2⟩

/-! Claim C9. -/

/-- Claim C9: once a Connect whose dial failed has consumed the starter
guard, that first call returned the dial error, but every subsequent
Connect call in the same epoch returns nil rather than the dial error,
performs no dial and has no side effects at all; a dial can only happen
again through Reconnect, whose trace contains exactly one dial. -/
theorem Connect_after_failed_dial_noop (cl : Client) (e : Err)
    (dial2 : Except Err Unit) (n : Nat) (hstart : cl.starterUsed = false) :
    (Connect (Except.error e) cl).2.2 = some e ∧
    Connect dial2 (Connect (Except.error e) cl).1 =
      ((Connect (Except.error e) cl).1, [], none) ∧
    ConnectN dial2 n (Connect (Except.error e) cl).1 =
      ((Connect (Except.error e) cl).1, [], List.replicate n none) ∧
    countEvents Event.isDial
      (Reconnect dial2 (Connect (Except.error e) cl).1).2.1 = 1 := by
  have hused : (Connect (Except.error e) cl).1.starterUsed = true :=
    Connect_starterUsed _ cl
  refine ⟨by simp [Connect, hstart], Connect_of_starterUsed dial2 _ hused,
    ConnectN_of_starterUsed dial2 n _ hused, ?_⟩
  have hreset :
      (reset (Close (Connect (Except.error e) cl).1).1).starterUsed = false := by
    simp [reset]
  simp only [Reconnect]
  rw [countEvents_append]
  rw [Close_no_dial, Connect_fresh_one_dial dial2 _ hreset]

/-- Witness for claim C9 at a concrete client, with two further calls. -/
theorem Connect_after_failed_dial_noop_witness :
    (Connect (Except.error "connection refused") demoClientB).2.2 =
      some "connection refused" ∧
    ConnectN (Except.ok ()) 2
      (Connect (Except.error "connection refused") demoClientB).1 =
      ((Connect (Except.error "connection refused") demoClientB).1, [],
       [none, none]) :=
  ⟨(Connect_after_failed_dial_noop demoClientB "connection refused"
      (Except.ok ()) 2 rfl).1,
   (Connect_after_failed_dial_noop demoClientB "connection refused"
      (Except.ok ()) 2 rfl).2.2.1⟩

/-! Claim C5. -/

/-- Claim C5: for every n of at least 1 successive Close calls in an
epoch where teardown has not happened yet, the before-disconnect hook is
invoked exactly once, the disconnected signal fires exactly once, the
transport handle is closed at most once, no call faults, and every call
after the first is a no-op: the whole run equals the first call. -/
theorem Close_repeated_idempotent (cl : Client) (n : Nat) (hn : 1 ≤ n)
    (hclose : cl.closerUsed = false) (hd : cl.disconnectedFired = false)
    (hook : BeforeDisconnectHook)
    (hhook : cl.beforeDisconnectHook = some hook) :
    countEvents Event.isBeforeDisconnect (CloseN n cl).2 = 1 ∧
    countEvents Event.isFireDisconnected (CloseN n cl).2 = 1 ∧
    countEvents Event.isCloseHandle (CloseN n cl).2 ≤ 1 ∧
    countEvents Event.isFault (CloseN n cl).2 = 0 ∧
    CloseN n cl = ((Close cl).1, (Close cl).2) := by
  obtain ⟨m, rfl⟩ : ∃ m, n = m + 1 := ⟨n - 1, by omega⟩
  have hCl : CloseN (m + 1) cl = ((Close cl).1, (Close cl).2) := by
    simp [CloseN, CloseN_of_closerUsed m _ (Close_closerUsed cl)]
  rw [hCl]
  refine ⟨?_, ?_, ?_, ?_, rfl⟩ <;>
    rcases h2 : hook () with _ | e <;> by_cases hc : cl.c = true <;>
      simp [Close, hclose, hd, hc, closeHookEvents, hhook, h2, countEvents,
        Event.isBeforeDisconnect, Event.isFireDisconnected,
        Event.isCloseHandle, Event.isFault]

/-- Witness for claim C5: two Close calls on a connected client. -/
theorem Close_repeated_idempotent_witness :
    countEvents Event.isBeforeDisconnect (CloseN 2 demoClientA).2 = 1 ∧
    countEvents Event.isFireDisconnected (CloseN 2 demoClientA).2 = 1 ∧
    countEvents Event.isFault (CloseN 2 demoClientA).2 = 0 :=
  ⟨(Close_repeated_idempotent demoClientA 2 (by decide) rfl rfl
      (fun _ => none) rfl).1,
   (Close_repeated_idempotent demoClientA 2 (by decide) rfl rfl
      (fun _ => none) rfl).2.1,
   (Close_repeated_idempotent demoClientA 2 (by decide) rfl rfl
      (fun _ => none) rfl).2.2.2.1⟩

/-! Claim C6. -/

/-- Claim C6: Write on a client whose transport handle is nil reports the
error through the on-error hook and returns that non-nil error, with no
transport write, no enqueue, no teardown, and no state change at all; and
after a first effective Close the handle is indeed nil, so this covers
every Write after Close. -/
theorem Write_nil_handle_errors (cl cl2 : Client) (dl wr : Option Err)
    (data : Payload) (hc : IsActive cl = false)
    (h2 : cl2.closerUsed = false) :
    Write dl wr data cl =
      (cl, [Event.hookOnError writeNilErr], some writeNilErr) ∧
    IsActive (Close cl2).1 = false := by
  constructor
  · have hcc : cl.c = false := hc
    simp [Write, hcc]
  · by_cases hcc : cl2.c = true <;>
      by_cases hdd : cl2.disconnectedFired = true <;>
        simp [Close, IsActive, h2, hcc, hdd]

/-- Witness for claim C6: Write on a closed client. -/
theorem Write_nil_handle_errors_witness :
    Write none none [1] demoClientB =
      (demoClientB, [Event.hookOnError writeNilErr], some writeNilErr) ∧
    IsActive (Close demoClientA).1 = false :=
  ⟨(Write_nil_handle_errors demoClientB demoClientA none none [1]
      rfl rfl).1,
   (Write_nil_handle_errors demoClientB demoClientA none none [1]
      rfl rfl).2⟩

/-! Claim C7. -/

/-- Claim C7: when Write holds a non-nil handle but setting the write
deadline or the transport write itself fails, the error is reported via
the on-error hook, returned to the caller, and the deferred Close runs
before Write returns: the final state is inactive with the closer guard
consumed, and the disconnected signal fires exactly once. -/
theorem Write_failure_triggers_teardown (cl : Client) (e : Err)
    (data : Payload) (dl wr : Option Err) (hc : cl.c = true)
    (hclose : cl.closerUsed = false) (hd : cl.disconnectedFired = false)
    (hfail : dl = some e ∨ (dl = none ∧ wr = some e)) :
    (Write dl wr data cl).2.2 = some e ∧
    Event.hookOnError e ∈ (Write dl wr data cl).2.1 ∧
    countEvents Event.isFireDisconnected (Write dl wr data cl).2.1 = 1 ∧
    IsActive (Write dl wr data cl).1 = false ∧
    (Write dl wr data cl).1.closerUsed = true := by
  have hCt : (List.filter Event.isFireDisconnected (Close cl).2).length = 1 := by
    simp [Close, hclose, hd, hc, countEvents, List.filter_append,
      closeHookEvents_filter Event.isFireDisconnected rfl (fun _ => rfl),
      Event.isFireDisconnected]
  have hAct : (Close cl).1.c = false := by
    simp [Close, hclose, hd, hc]
  have hUsed : (Close cl).1.closerUsed = true := Close_closerUsed cl
  rcases hfail with h | ⟨h1, h2⟩
  · subst h
    refine ⟨by simp [Write, hc], ?_, ?_, ?_, ?_⟩ <;>
      simp [Write, hc, IsActive, hCt, hAct, hUsed, countEvents_append,
        countEvents, Event.isFireDisconnected]
  · subst h1; subst h2
    refine ⟨by simp [Write, hc], ?_, ?_, ?_, ?_⟩ <;>
      simp [Write, hc, IsActive, hCt, hAct, hUsed, countEvents_append,
        countEvents, Event.isFireDisconnected]

/-- Witness for claim C7: a failing transport write on a connected client. -/
theorem Write_failure_triggers_teardown_witness :
    (Write none (some "broken pipe") [1] demoClientA).2.2 =
      some "broken pipe" ∧
    IsActive (Write none (some "broken pipe") [1] demoClientA).1 = false :=
  ⟨(Write_failure_triggers_teardown demoClientA "broken pipe" [1] none
      (some "broken pipe") rfl rfl rfl (Or.inr ⟨rfl, rfl⟩)).1,
   (Write_failure_triggers_teardown demoClientA "broken pipe" [1] none
      (some "broken pipe") rfl rfl rfl (Or.inr ⟨rfl, rfl⟩)).2.2.2.1⟩

/-! Claim C8. The claim asserts that all four hook slots left unset are
defaulted to non-nil implementations at construction instead of being
nil-checked at call sites. In the source, setDefaults fills only the
after-read and on-error slots; the after-connect and before-disconnect
slots stay nil and the afterConnect and Close call sites nil-check them. -/

/-- Claim C8 counterexample: after setDefaults on a configuration with
every hook unset, the after-connect and before-disconnect slots are still
nil, refuting the claim that each of the four unset slots holds a non-nil
default. -/
theorem setDefaults_leaves_connect_hooks_nil :
    (setDefaults demoInitEmpty).afterConnectHook = none ∧
    (setDefaults demoInitEmpty).beforeDisconnectHook = none ∧
    demoInitEmpty.afterReadHook = none ∧
    demoInitEmpty.afterConnectHook = none ∧
    demoInitEmpty.beforeDisconnectHook = none ∧
    demoInitEmpty.onErrorHook = none :=
  ⟨rfl, rfl, rfl, rfl, rfl, rfl⟩

/-- Claim C8 amended: after construction, exactly the after-read and
on-error hook slots are guaranteed non-nil, each filled with its explicit
identity or pass-through default when left unset; the after-connect and
before-disconnect slots are left exactly as configured, nil when unset,
and are nil-checked at their call sites instead. -/
theorem setDefaults_defaults_read_and_error_hooks (conn : ClientInit) :
    (setDefaults conn).afterReadHook.isSome = true ∧
    (setDefaults conn).onErrorHook.isSome = true ∧
    (conn.afterReadHook = none →
      (setDefaults conn).afterReadHook = some defaultAfterReadHook) ∧
    (conn.onErrorHook = none →
      (setDefaults conn).onErrorHook = some defaultOnErrorHook) ∧
    (setDefaults conn).afterConnectHook = conn.afterConnectHook ∧
    (setDefaults conn).beforeDisconnectHook = conn.beforeDisconnectHook := by
  refine ⟨?_, ?_, ?_, ?_, rfl, rfl⟩
  · rcases h : conn.afterReadHook with _ | f <;> simp [setDefaults, h]
  · rcases h : conn.onErrorHook with _ | f <;> simp [setDefaults, h]
  · intro h; simp [setDefaults, h]
  · intro h; simp [setDefaults, h]

/-- Witness for the amended claim C8 on the all-unset configuration. -/
theorem setDefaults_defaults_read_and_error_hooks_witness :
    (setDefaults demoInitEmpty).afterReadHook = some defaultAfterReadHook ∧
    (setDefaults demoInitEmpty).onErrorHook = some defaultOnErrorHook :=
  ⟨(setDefaults_defaults_read_and_error_hooks demoInitEmpty).2.2.1 rfl,
   (setDefaults_defaults_read_and_error_hooks demoInitEmpty).2.2.2.1 rfl⟩

/-! Claim C10. -/

/-- Claim C10: when the after-read hook returns an error on a non-empty
read, the read loop first lets processResponse enqueue the payload and
report the hook error, then reports that same error again itself and
terminates returning it, and the deferred Close tears the connection
down: the full trace is after-read hook, on-error, enqueue, on-error,
disconnected signal, handle release, and the final state is inactive with
the closer guard consumed and the payload still in the mailbox. -/
theorem readFromConn_hook_error_fatal (cl : Client)
    (data processed : Payload) (e : Err) (step : ReadStep)
    (rest : List ReadStep) (hc : cl.c = true)
    (hclose : cl.closerUsed = false) (hd : cl.disconnectedFired = false)
    (hbd : cl.beforeDisconnectHook = none)
    (hdl : step.setDeadlineErr = none) (hbytes : step.bytesRead = data)
    (hdata : 0 < data.length)
    (hhook : cl.afterReadHook data = (processed, some e)) :
    (readFromConn (step :: rest) cl).2.2 = some e ∧
    (readFromConn (step :: rest) cl).1.readChan =
      cl.readChan ++ [processed] ∧
    (readFromConn (step :: rest) cl).2.1 =
      [Event.hookAfterRead data, Event.hookOnError e,
       Event.enqueue processed, Event.hookOnError e,
       Event.fireDisconnected, Event.closeHandle] ∧
    IsActive (readFromConn (step :: rest) cl).1 = false ∧
    (readFromConn (step :: rest) cl).1.closerUsed = true := by
  refine ⟨?_, ?_, ?_, ?_, ?_⟩ <;>
    simp [readFromConn, readLoop, processResponse, Close, closeHookEvents,
      IsActive, hc, hclose, hd, hbd, hdl, hbytes, hdata, hhook]

/-- Witness for claim C10: one read of one byte through a failing
after-read hook on a connected client without a before-disconnect hook. -/
theorem readFromConn_hook_error_fatal_witness :
    (readFromConn [⟨none, [7], none⟩] demoClientC).2.2 =
      some "afterRead failure" ∧
    (readFromConn [⟨none, [7], none⟩] demoClientC).1.readChan = [[7]] ∧
    IsActive (readFromConn [⟨none, [7], none⟩] demoClientC).1 = false := by
  have h := readFromConn_hook_error_fatal demoClientC [7] [7]
    "afterRead failure" ⟨none, [7], none⟩ [] rfl rfl rfl rfl rfl rfl
    (by decide) rfl
  exact ⟨h.1, by simpa [demoClientC, demoClientA] using h.2.1, h.2.2.2.1⟩

end EventedConnection
